import Mathlib

/-!
Verification development for the Firebase configuration security tester
(`fb_tester.py`).  The Python source is shallowly embedded: strings are
`List Char` / `String`, Python dicts are association lists with
last-write-wins insertion (`dictInsert`), fallible operations return
`Option` or `Except`, and every recursive scanner is either structural or
fueled with a fuel bound that the input length makes sufficient, so that
all definitions compute by kernel reduction.

Modeling notes (deviations from CPython, none reachable by the theorems
below):
* JSON number literals keep their lexeme instead of being converted to
  int/float, and the special tokens NaN/Infinity are not accepted;
* a `\uXXXX` escape denoting a lone surrogate is rejected (Lean `Char`
  cannot hold surrogate code points);
* the regex class `\w` is modeled as ASCII `[A-Za-z0-9_]`;
* `str()` of a non-scalar JSON value is an approximate repr.
-/

namespace FbSpec

/-- Whitespace characters removed by Python `str.strip()` and matched by the
regex class `\s` in str patterns. -/
def pyIsSpace (c : Char) : Bool :=
  let n := c.toNat
  (0x9 ≤ n && n ≤ 0xd) || n = 0x20 || (0x1c ≤ n && n ≤ 0x1f) ||
  n = 0x85 || n = 0xa0 || n = 0x1680 || (0x2000 ≤ n && n ≤ 0x200a) ||
  n = 0x2028 || n = 0x2029 || n = 0x202f || n = 0x205f || n = 0x3000

/-- Drop the longest suffix whose characters satisfy `p`. -/
def dropWhileRight (p : Char → Bool) (cs : List Char) : List Char :=
  (cs.reverse.dropWhile p).reverse

/-- Python `str.strip()` on a character list. -/
def pyStripList (cs : List Char) : List Char :=
  dropWhileRight pyIsSpace (cs.dropWhile pyIsSpace)

/-- Python `str.strip()`. -/
def pyStrip (s : String) : String := ⟨pyStripList s.data⟩

/-- Python `str.strip(chars)`: remove leading and trailing characters that
belong to `set`. -/
def stripCharsList (set : List Char) (cs : List Char) : List Char :=
  dropWhileRight (fun c => set.contains c) (cs.dropWhile (fun c => set.contains c))

/-- Python `str.rstrip(chars)`. -/
def rstripCharsList (set : List Char) (cs : List Char) : List Char :=
  dropWhileRight (fun c => set.contains c) cs

/-- Decimal digits of `n`, most significant first; fueled so that the
definition reduces in the kernel (`f = n + 1` always suffices). -/
def natDigitsF : Nat → Nat → List Char
  | 0, _ => []
  | f + 1, n =>
    if n < 10 then [Char.ofNat (48 + n)]
    else natDigitsF f (n / 10) ++ [Char.ofNat (48 + n % 10)]

/-- Decimal rendering of a natural number, as Python `str(n)` for `n ≥ 0`. -/
def natStr (n : Nat) : String := ⟨natDigitsF (n + 1) n⟩

/-- JSON values as produced by Python `json.loads`.  Numbers keep their
source lexeme; objects are association lists in insertion order with unique
keys (Python dict semantics). -/
inductive Json where
  | null
  | bool (b : Bool)
  | num (lexeme : String)
  | str (s : String)
  | arr (items : List Json)
  | obj (pairs : List (String × Json))
deriving Repr

/-- Python dict assignment `d[k] = v` on an association list: replace in
place if the key exists (keeping its position), otherwise append. -/
def dictInsert {α : Type} (kvs : List (String × α)) (k : String) (v : α) :
    List (String × α) :=
  if kvs.any (fun kv => kv.1 = k) then
    kvs.map (fun kv => if kv.1 = k then (k, v) else kv)
  else kvs ++ [(k, v)]

/-- Association-list lookup, Python `k in d` / `d[k]` / `d.get(k)`. -/
def lookupD {α : Type} (kvs : List (String × α)) (k : String) : Option α :=
  match kvs with
  | [] => none
  | kv :: rest => if kv.1 = k then some kv.2 else lookupD rest k

/-- JSON insignificant whitespace (the only characters `json.loads` skips
between tokens). -/
def jsonWs (c : Char) : Bool := c = ' ' || c = '\t' || c = '\n' || c = '\r'

/-- Skip JSON insignificant whitespace. -/
def skipWs : List Char → List Char
  | [] => []
  | c :: cs => if jsonWs c then skipWs cs else c :: cs

/-- Value of one hexadecimal digit. -/
def hexVal (c : Char) : Option Nat :=
  let n := c.toNat
  if 48 ≤ n && n ≤ 57 then some (n - 48)
  else if 97 ≤ n && n ≤ 102 then some (n - 87)
  else if 65 ≤ n && n ≤ 70 then some (n - 55)
  else none

/-- Value of four hexadecimal digits. -/
def hex4 (a b c d : Char) : Option Nat := do
  let x ← hexVal a
  let y ← hexVal b
  let z ← hexVal c
  let w ← hexVal d
  pure (((x * 16 + y) * 16 + z) * 16 + w)

/-- The character denoted by a single-character JSON escape, if valid. -/
def jsonEscChar (e : Char) : Option Char :=
  if e = '"' then some '"'
  else if e = '\\' then some '\\'
  else if e = '/' then some '/'
  else if e = 'b' then some '\x08'
  else if e = 'f' then some '\x0c'
  else if e = 'n' then some '\n'
  else if e = 'r' then some '\r'
  else if e = 't' then some '\t'
  else none

/-- Four hexadecimal digits at the head of the input, with the rest. -/
def hex4At (cs : List Char) : Option (Nat × List Char) :=
  match cs with
  | h1 :: h2 :: h3 :: h4 :: cs2 => (hex4 h1 h2 h3 h4).map (fun n => (n, cs2))
  | _ => none

/-- Body of a JSON string literal after the opening quote (fueled; every
step consumes input, so `length + 1` fuel always suffices): returns the
decoded characters and the input after the closing quote.  Strict mode as
in `json.loads`: raw control characters and invalid escapes are rejected;
`\uXXXX` surrogate pairs are combined (a lone surrogate is rejected — a
model limit, Lean characters cannot hold surrogates). -/
def parseStrBodyF : Nat → List Char → Option (List Char × List Char)
  | 0, _ => none
  | fuel + 1, cs =>
    match cs with
    | [] => none
    | c :: rest =>
      if c = '"' then some ([], rest)
      else if c = '\\' then
        match rest with
        | [] => none
        | e :: cs1 =>
          if e = 'u' then
            match hex4At cs1 with
            | none => none
            | some (n, cs2) =>
              if n < 0xd800 || 0xe000 ≤ n then
                (parseStrBodyF fuel cs2).map (fun r => (Char.ofNat n :: r.1, r.2))
              else if n < 0xdc00 then
                match cs2 with
                | a :: b :: cs2b =>
                  if a = '\\' && b = 'u' then
                    match hex4At cs2b with
                    | some (m, cs3) =>
                      if 0xdc00 ≤ m && m < 0xe000 then
                        (parseStrBodyF fuel cs3).map (fun r =>
                          (Char.ofNat
                            (0x10000 + (n - 0xd800) * 0x400 + (m - 0xdc00)) :: r.1,
                            r.2))
                      else none
                    | none => none
                  else none
                | _ => none
              else none
          else
            match jsonEscChar e with
            | some d => (parseStrBodyF fuel cs1).map (fun r => (d :: r.1, r.2))
            | none => none
      else if c.toNat < 0x20 then none
      else (parseStrBodyF fuel rest).map (fun r => (c :: r.1, r.2))

/-- `parseStrBodyF` with always-sufficient fuel. -/
def parseStrBody (cs : List Char) : Option (List Char × List Char) :=
  parseStrBodyF (cs.length + 1) cs

/-- ASCII decimal digit test. -/
def isDigitCh (c : Char) : Bool := 48 ≤ c.toNat && c.toNat ≤ 57

/-- JSON number literal per the grammar used by `json.loads`
(`-?(0|[1-9][0-9]*)(.[0-9]+)?([eE][+-]?[0-9]+)?`), returning its lexeme and
the rest of the input. -/
def parseNum (cs : List Char) : Option (List Char × List Char) :=
  let signAndRest : List Char × List Char :=
    match cs with
    | '-' :: t => (['-'], t)
    | _ => ([], cs)
  let sign := signAndRest.1
  let r1 := signAndRest.2
  match r1 with
  | [] => none
  | c :: _ =>
    if ¬ isDigitCh c then none
    else
      let ip := r1.span isDigitCh
      let intPart := ip.1
      let r2 := ip.2
      if intPart.length > 1 && intPart.headD ' ' = '0' then none
      else
        let fp : List Char × List Char :=
          match r2 with
          | '.' :: t =>
            let ds := t.span isDigitCh
            if ds.1 = [] then ([], r2) else ('.' :: ds.1, ds.2)
          | _ => ([], r2)
        let r3 := fp.2
        let ep : List Char × List Char :=
          match r3 with
          | e :: t =>
            if e = 'e' || e = 'E' then
              let st : List Char × List Char :=
                match t with
                | '+' :: u => (['+'], u)
                | '-' :: u => (['-'], u)
                | _ => ([], t)
              let ds := st.2.span isDigitCh
              if ds.1 = [] then ([], r3) else (e :: (st.1 ++ ds.1), ds.2)
            else ([], r3)
          | [] => ([], r3)
        some (sign ++ intPart ++ fp.1 ++ ep.1, ep.2)

mutual

/-- One JSON value (fueled recursive-descent scanner mirroring
`json.loads`); fuel `length + 1` is always sufficient because every unit of
fuel is spent only after consuming at least one input character. -/
def parseVal : Nat → List Char → Option (Json × List Char)
  | 0, _ => none
  | Nat.succ f, cs =>
    match skipWs cs with
    | [] => none
    | c :: cs1 =>
      if c = '\x7b' then
        match skipWs cs1 with
        | c2 :: cs2 =>
          if c2 = '\x7d' then some (Json.obj [], cs2)
          else (parseMembers f [] cs1).map (fun r => (Json.obj r.1, r.2))
        | [] => (parseMembers f [] cs1).map (fun r => (Json.obj r.1, r.2))
      else if c = '[' then
        match skipWs cs1 with
        | c2 :: cs2 =>
          if c2 = ']' then some (Json.arr [], cs2)
          else (parseItems f [] cs1).map (fun r => (Json.arr r.1.reverse, r.2))
        | [] => (parseItems f [] cs1).map (fun r => (Json.arr r.1.reverse, r.2))
      else if c = '"' then
        (parseStrBody cs1).map (fun r => (Json.str ⟨r.1⟩, r.2))
      else if c = 't' then
        match cs1 with
        | 'r' :: 'u' :: 'e' :: rest => some (Json.bool true, rest)
        | _ => none
      else if c = 'f' then
        match cs1 with
        | 'a' :: 'l' :: 's' :: 'e' :: rest => some (Json.bool false, rest)
        | _ => none
      else if c = 'n' then
        match cs1 with
        | 'u' :: 'l' :: 'l' :: rest => some (Json.null, rest)
        | _ => none
      else
        (parseNum (c :: cs1)).map (fun r => (Json.num ⟨r.1⟩, r.2))

/-- Members of a JSON object after the opening brace, accumulating with
Python-dict insertion (duplicate keys: last occurrence wins, first position
kept). -/
def parseMembers : Nat → List (String × Json) → List Char →
    Option (List (String × Json) × List Char)
  | 0, _, _ => none
  | Nat.succ f, acc, cs =>
    match skipWs cs with
    | c :: cs1 =>
      if c = '"' then
        match parseStrBody cs1 with
        | none => none
        | some (key, cs2) =>
          match skipWs cs2 with
          | c2 :: cs3 =>
            if c2 = ':' then
              match parseVal f cs3 with
              | none => none
              | some (v, cs4) =>
                match skipWs cs4 with
                | c3 :: cs5 =>
                  if c3 = ',' then parseMembers f (dictInsert acc ⟨key⟩ v) cs5
                  else if c3 = '\x7d' then some (dictInsert acc ⟨key⟩ v, cs5)
                  else none
                | [] => none
            else none
          | [] => none
      else none
    | [] => none

/-- Items of a JSON array after the opening bracket (accumulated in reverse). -/
def parseItems : Nat → List Json → List Char →
    Option (List Json × List Char)
  | 0, _, _ => none
  | Nat.succ f, acc, cs =>
    match parseVal f cs with
    | none => none
    | some (v, cs1) =>
      match skipWs cs1 with
      | c :: cs2 =>
        if c = ',' then parseItems f (v :: acc) cs2
        else if c = ']' then some (v :: acc, cs2)
        else none
      | [] => none

end

/-- Python `json.loads` on a character list: one value, with the whole input
consumed up to trailing insignificant whitespace. -/
def jsonLoadsL (cs : List Char) : Option Json :=
  match parseVal (cs.length + 1) cs with
  | some (v, rest) => if skipWs rest = [] then some v else none
  | none => none

/-- Lowercase hexadecimal digit. -/
def hexDigitCh (n : Nat) : Char :=
  if n < 10 then Char.ofNat (48 + n) else Char.ofNat (87 + n)

/-- Four lowercase hexadecimal digits of `n < 0x10000`. -/
def hex4Chars (n : Nat) : List Char :=
  [hexDigitCh (n / 4096 % 16), hexDigitCh (n / 256 % 16),
   hexDigitCh (n / 16 % 16), hexDigitCh (n % 16)]

/-- The escape `\uXXXX` for code unit `n`. -/
def uEsc (n : Nat) : List Char := '\\' :: 'u' :: hex4Chars n

/-- Escaping of one character by `json.dumps` (default `ensure_ascii=True`):
quote, backslash and the named control escapes, `\uXXXX` for all other
characters outside printable ASCII (surrogate pairs beyond the BMP). -/
def escChar (c : Char) : List Char :=
  if c = '"' then ['\\', '"']
  else if c = '\\' then ['\\', '\\']
  else if c = '\n' then ['\\', 'n']
  else if c = '\r' then ['\\', 'r']
  else if c = '\t' then ['\\', 't']
  else if c = '\x08' then ['\\', 'b']
  else if c = '\x0c' then ['\\', 'f']
  else if c.toNat < 0x20 || 0x7e < c.toNat then
    if c.toNat < 0x10000 then uEsc c.toNat
    else
      uEsc (0xd800 + (c.toNat - 0x10000) / 0x400) ++
        uEsc (0xdc00 + (c.toNat - 0x10000) % 0x400)
  else [c]

/-- `escChar` mapped over a string body. -/
def escStr : List Char → List Char
  | [] => []
  | c :: cs => escChar c ++ escStr cs

mutual

/-- Python `json.dumps` with default separators (`", "` and `": "`) and
`ensure_ascii=True`; object pairs in insertion order. -/
def dumpVal : Json → List Char
  | Json.null => ['n', 'u', 'l', 'l']
  | Json.bool true => ['t', 'r', 'u', 'e']
  | Json.bool false => ['f', 'a', 'l', 's', 'e']
  | Json.num l => l.data
  | Json.str s => '"' :: escStr s.data ++ ['"']
  | Json.arr items => '[' :: dumpItemsD items ++ [']']
  | Json.obj pairs => '\x7b' :: dumpPairsD pairs ++ ['\x7d']

/-- Array items joined by `", "`. -/
def dumpItemsD : List Json → List Char
  | [] => []
  | [x] => dumpVal x
  | x :: y :: rest => dumpVal x ++ ',' :: ' ' :: dumpItemsD (y :: rest)

/-- Object pairs rendered as `"key": value`, joined by `", "`. -/
def dumpPairsD : List (String × Json) → List Char
  | [] => []
  | [kv] => '"' :: escStr kv.1.data ++ '"' :: ':' :: ' ' :: dumpVal kv.2
  | kv :: kv2 :: rest =>
    ('"' :: escStr kv.1.data ++ '"' :: ':' :: ' ' :: dumpVal kv.2) ++
      ',' :: ' ' :: dumpPairsD (kv2 :: rest)

end

/-- Octal digit test. -/
def isOctalCh (c : Char) : Bool := 48 ≤ c.toNat && c.toNat ≤ 55

/-- Value of one octal digit. -/
def octVal (c : Char) : Nat := c.toNat - 48

/-- Python `bytes.decode('unicode_escape')` on ASCII input (the strings fed
to it here come from `json.dumps`, whose output is pure ASCII).  Recognized
escapes are decoded, an unknown escape keeps its backslash, and a truncated
`\x`/`\u`/`\U`, a trailing backslash, or a `\uXXXX` lone surrogate (which
Lean characters cannot represent) yields `none`. -/
def ueDecode : List Char → Option (List Char)
  | [] => some []
  | c0 :: rest =>
    if c0 = '\\' then
    match rest with
    | [] => none
    | '\n' :: cs => ueDecode cs
    | '\\' :: cs => (ueDecode cs).map (fun r => '\\' :: r)
    | '\x27' :: cs => (ueDecode cs).map (fun r => '\x27' :: r)
    | '"' :: cs => (ueDecode cs).map (fun r => '"' :: r)
    | 'a' :: cs => (ueDecode cs).map (fun r => '\x07' :: r)
    | 'b' :: cs => (ueDecode cs).map (fun r => '\x08' :: r)
    | 'f' :: cs => (ueDecode cs).map (fun r => '\x0c' :: r)
    | 'n' :: cs => (ueDecode cs).map (fun r => '\n' :: r)
    | 'r' :: cs => (ueDecode cs).map (fun r => '\r' :: r)
    | 't' :: cs => (ueDecode cs).map (fun r => '\t' :: r)
    | 'v' :: cs => (ueDecode cs).map (fun r => '\x0b' :: r)
    | 'x' :: h1 :: h2 :: cs =>
      match hexVal h1, hexVal h2 with
      | some a, some b => (ueDecode cs).map (fun r => Char.ofNat (a * 16 + b) :: r)
      | _, _ => none
    | 'x' :: _ => none
    | 'u' :: h1 :: h2 :: h3 :: h4 :: cs =>
      match hex4 h1 h2 h3 h4 with
      | some n =>
        if n < 0xd800 || 0xe000 ≤ n then
          (ueDecode cs).map (fun r => Char.ofNat n :: r)
        else none
      | none => none
    | 'u' :: _ => none
    | 'U' :: h1 :: h2 :: h3 :: h4 :: h5 :: h6 :: h7 :: h8 :: cs =>
      match hex4 h1 h2 h3 h4, hex4 h5 h6 h7 h8 with
      | some hi, some lo =>
        let n := hi * 0x10000 + lo
        if n ≤ 0x10ffff && (n < 0xd800 || 0xe000 ≤ n) then
          (ueDecode cs).map (fun r => Char.ofNat n :: r)
        else none
      | _, _ => none
    | 'U' :: _ => none
    | 'N' :: _ => none
    | c1 :: cs =>
      if isOctalCh c1 then
        match cs with
        | c2 :: c3 :: cs2 =>
          if isOctalCh c2 then
            if isOctalCh c3 then
              (ueDecode cs2).map
                (fun r => Char.ofNat (octVal c1 * 64 + octVal c2 * 8 + octVal c3) :: r)
            else
              (ueDecode (c3 :: cs2)).map
                (fun r => Char.ofNat (octVal c1 * 8 + octVal c2) :: r)
          else (ueDecode (c2 :: c3 :: cs2)).map (fun r => Char.ofNat (octVal c1) :: r)
        | [c2] =>
          if isOctalCh c2 then some [Char.ofNat (octVal c1 * 8 + octVal c2)]
          else (ueDecode [c2]).map (fun r => Char.ofNat (octVal c1) :: r)
        | [] => some [Char.ofNat (octVal c1)]
      else (ueDecode cs).map (fun r => '\\' :: c1 :: r)
    else (ueDecode rest).map (fun r => c0 :: r)

/-- Whether a JSON number lexeme denotes zero (its mantissa digits are all
`0`), for Python truthiness. -/
def numMantissaZero (l : List Char) : Bool :=
  (l.takeWhile (fun c => c ≠ 'e' && c ≠ 'E')).all
    (fun c => c = '0' || c = '.' || c = '-' || c = '+')

/-- Python truthiness of a decoded JSON value. -/
def pyTruthy : Json → Bool
  | Json.null => false
  | Json.bool b => b
  | Json.num l => !(numMantissaZero l.data)
  | Json.str s => s != ""
  | Json.arr items => !(items.isEmpty)
  | Json.obj pairs => !(pairs.isEmpty)

mutual

/-- Python `str()` of a decoded JSON value (`repr` used inside containers is
approximated: strings single-quoted without escaping). -/
def pyStrVal : Json → List Char
  | Json.null => ['N', 'o', 'n', 'e']
  | Json.bool true => ['T', 'r', 'u', 'e']
  | Json.bool false => ['F', 'a', 'l', 's', 'e']
  | Json.num l => l.data
  | Json.str s => s.data
  | Json.arr items => '[' :: pyReprItems items ++ [']']
  | Json.obj pairs => '\x7b' :: pyReprPairs pairs ++ ['\x7d']

/-- Approximate Python `repr()` of a decoded JSON value. -/
def pyReprVal : Json → List Char
  | Json.null => ['N', 'o', 'n', 'e']
  | Json.bool true => ['T', 'r', 'u', 'e']
  | Json.bool false => ['F', 'a', 'l', 's', 'e']
  | Json.num l => l.data
  | Json.str s => '\x27' :: s.data ++ ['\x27']
  | Json.arr items => '[' :: pyReprItems items ++ [']']
  | Json.obj pairs => '\x7b' :: pyReprPairs pairs ++ ['\x7d']

/-- List items under `repr`, joined by `", "`. -/
def pyReprItems : List Json → List Char
  | [] => []
  | [x] => pyReprVal x
  | x :: y :: rest => pyReprVal x ++ ',' :: ' ' :: pyReprItems (y :: rest)

/-- Dict pairs under `repr`, joined by `", "`. -/
def pyReprPairs : List (String × Json) → List Char
  | [] => []
  | [kv] => '\x27' :: kv.1.data ++ '\x27' :: ':' :: ' ' :: pyReprVal kv.2
  | kv :: kv2 :: rest =>
    ('\x27' :: kv.1.data ++ '\x27' :: ':' :: ' ' :: pyReprVal kv.2) ++
      ',' :: ' ' :: pyReprPairs (kv2 :: rest)

end

/-- Python `str()` of a decoded JSON value, as a `String`. -/
def pyStr (j : Json) : String := ⟨pyStrVal j⟩

/-- Model of `FirebaseConfigTester._parse_config`: serialize the parsed
config with `json.dumps`, decode the text with `unicode_escape`, re-parse
with `json.loads`, then keep each truthy value as `str(value).strip()`.
`none` models the uncaught exception paths: the re-parse raising
`JSONDecodeError`, `unicode_escape` failing, or `.items()` on a non-dict. -/
def tester_parse_config (config : Json) : Option (List (String × String)) :=
  match ueDecode (dumpVal config) with
  | none => none
  | some decoded =>
    match jsonLoadsL decoded with
    | some (Json.obj kvs) =>
      some (kvs.foldl
        (fun acc kv =>
          if pyTruthy kv.2 then dictInsert acc kv.1 (pyStrip (pyStr kv.2)) else acc)
        [])
    | some _ => none
    | none => none

/-- ASCII model of the regex class `\w`. -/
def isWordCh (c : Char) : Bool :=
  (65 ≤ c.toNat && c.toNat ≤ 90) || (97 ≤ c.toNat && c.toNat ≤ 122) ||
    isDigitCh c || c = '_'

/-- Model of `re.sub(r'//.*$', '', line)` applied to one line: everything
from the first `//` on is removed. -/
def cutLineComment : List Char → List Char
  | [] => []
  | '/' :: '/' :: _ => []
  | c :: cs => c :: cutLineComment cs

/-- Input remaining after the closing `*/` of a block comment, if any. -/
def findCloseBlock : List Char → Option (List Char)
  | '*' :: '/' :: cs => some cs
  | _ :: cs => findCloseBlock cs
  | [] => none

/-- Model of `re.sub(r'/\*.*?\*/', '', line)` on one line: remove each
non-overlapping minimal `/* ... */` span; a `/*` with no later `*/` does not
match.  Fueled; `length + 1` suffices since every step consumes input. -/
def cutBlocksF : Nat → List Char → List Char
  | 0, cs => cs
  | _ + 1, [] => []
  | f + 1, '/' :: cs =>
    match cs with
    | '*' :: cs1 =>
      match findCloseBlock cs1 with
      | some rest => cutBlocksF f rest
      | none => '/' :: cutBlocksF f ('*' :: cs1)
    | _ => '/' :: cutBlocksF f cs
  | f + 1, c :: cs => c :: cutBlocksF f cs

/-- Block-comment removal on one line. -/
def cutBlocks (cs : List Char) : List Char := cutBlocksF (cs.length + 1) cs

/-- Python `str.split('\n')` (keeps empty pieces). -/
def splitLinesAux (cur : List Char) : List Char → List (List Char)
  | [] => [cur.reverse]
  | '\n' :: cs => cur.reverse :: splitLinesAux [] cs
  | c :: cs => splitLinesAux (c :: cur) cs

/-- Python `str.split('\n')`. -/
def splitLines (cs : List Char) : List (List Char) := splitLinesAux [] cs

/-- Python `'\n'.join(lines)`. -/
def joinLines : List (List Char) → List Char
  | [] => []
  | [l] => l
  | l :: l2 :: rest => l ++ '\n' :: joinLines (l2 :: rest)

/-- The comment-removal loop (lines 604-610): per line, first the `//` line
comment, then `/* */` block comments. -/
def stripCommentsText (cs : List Char) : List Char :=
  joinLines ((splitLines cs).map (fun l => cutBlocks (cutLineComment l)))

/-- Attempt `\s*(\w+)(\s*):` at the current position: the uncaptured leading
`\s*`, the key (group 2), the captured whitespace before the colon
(group 3), and the rest after the colon. -/
def matchKeyRest (cs : List Char) : Option (List Char × List Char × List Char) :=
  let r1 := (cs.span pyIsSpace).2
  let w := r1.span isWordCh
  if w.1.isEmpty then none
  else
    let g3 := w.2.span pyIsSpace
    match g3.2 with
    | ':' :: rest => some (w.1, g3.1, rest)
    | _ => none

/-- Model of `re.sub(r'(^|\s|[{,])\s*(\w+)(\s*):', r'\1"\2"\3:', s,
flags=re.MULTILINE)`: left-to-right non-overlapping scan; at each position
the alternatives `^` (here: start of string or after a newline), one `\s`
character, and one `{`/`,` are tried in order; the uncaptured `\s*` between
group 1 and the key is dropped from the output.  Fueled; every step consumes
at least one character. -/
def quoteKeysF : Nat → Bool → List Char → List Char
  | 0, _, cs => cs
  | f + 1, atLS, cs =>
    match (if atLS then matchKeyRest cs else none) with
    | some r => '"' :: r.1 ++ '"' :: r.2.1 ++ ':' :: quoteKeysF f false r.2.2
    | none =>
      match cs with
      | [] => []
      | c :: cs1 =>
        if pyIsSpace c || c = '\x7b' || c = ',' then
          match matchKeyRest cs1 with
          | some r =>
            c :: '"' :: r.1 ++ '"' :: r.2.1 ++ ':' :: quoteKeysF f false r.2.2
          | none => c :: quoteKeysF f (c = '\n') cs1
        else c :: quoteKeysF f (c = '\n') cs1

/-- Step 1 of the JS-object normalization: quote bare keys. -/
def quoteKeys (cs : List Char) : List Char := quoteKeysF (cs.length + 1) true cs

/-- Model of `re.sub(r":\s*'([^']*)'", r': "\1"', s)`: rewrite each
single-quoted value after a colon to a double-quoted one (normalizing the
separating whitespace to one space). -/
def singleQuoteSubF : Nat → List Char → List Char
  | 0, cs => cs
  | _ + 1, [] => []
  | f + 1, ':' :: cs =>
    (match (cs.span pyIsSpace).2 with
     | '\x27' :: r2 =>
       let ct := r2.span (fun c => c ≠ '\x27')
       match ct.2 with
       | '\x27' :: rest => ':' :: ' ' :: '"' :: ct.1 ++ '"' :: singleQuoteSubF f rest
       | _ => ':' :: singleQuoteSubF f cs
     | _ => ':' :: singleQuoteSubF f cs)
  | f + 1, c :: cs => c :: singleQuoteSubF f cs

/-- Step 2 of the JS-object normalization. -/
def singleQuoteSub (cs : List Char) : List Char :=
  singleQuoteSubF (cs.length + 1) cs

/-- Model of `re.sub(r',(\s*[}\]])', r'\1', s)`: drop a comma standing
before (whitespace and) a closing brace or bracket. -/
def trailingCommaSubF : Nat → List Char → List Char
  | 0, cs => cs
  | _ + 1, [] => []
  | f + 1, ',' :: cs =>
    let ws := cs.span pyIsSpace
    (match ws.2 with
     | c :: rest =>
       if c = '\x7d' || c = ']' then ws.1 ++ c :: trailingCommaSubF f rest
       else ',' :: trailingCommaSubF f cs
     | [] => ',' :: trailingCommaSubF f cs)
  | f + 1, c :: cs => c :: trailingCommaSubF f cs

/-- Step 3 of the JS-object normalization. -/
def trailingCommaSub (cs : List Char) : List Char :=
  trailingCommaSubF (cs.length + 1) cs

/-- Character-by-character scan for the first colon outside quotes
(lines 656-671): a quote character not preceded by a backslash toggles the
in-quote state (only the matching quote character closes it).  Returns the
text before that colon and the text after it, or `none` when every colon is
inside quotes. -/
def scanColonAux : Option Char → Option Char → List Char →
    Option (List Char × List Char)
  | _, _, [] => none
  | prev, inQ, c :: cs =>
    if (c = '"' || c = '\x27') && prev ≠ some '\\' then
      match inQ with
      | none => (scanColonAux (some c) (some c) cs).map (fun r => (c :: r.1, r.2))
      | some q =>
        if c = q then (scanColonAux (some c) none cs).map (fun r => (c :: r.1, r.2))
        else (scanColonAux (some c) inQ cs).map (fun r => (c :: r.1, r.2))
    else if c = ':' && inQ.isNone then some ([], cs)
    else (scanColonAux (some c) inQ cs).map (fun r => (c :: r.1, r.2))

/-- One line of the line-by-line fallback (lines 643-691): skip blank,
comment and lone-brace lines, drop trailing commas, split at the first colon
outside quotes, strip quotes/whitespace from the key, strip whitespace from
the value and remove one pair of symmetric outer quotes, then store
non-empty keys with dict semantics. -/
def fallbackLine (config : List (String × String)) (line : List Char) :
    List (String × String) :=
  let l := pyStripList line
  if l.isEmpty then config
  else if l.headD ' ' = '#' then config
  else if (match l with | '/' :: '/' :: _ => true | _ => false) then config
  else if l = ['\x7b'] || l = ['\x7d'] || l = [','] then config
  else
    let l2 := rstripCharsList [','] l
    if ¬ l2.contains ':' then config
    else
      match scanColonAux none none l2 with
      | none => config
      | some (keyPart, valPart) =>
        let key := stripCharsList ['\x27', '"'] (pyStripList keyPart)
        let v1 := pyStripList valPart
        let value :=
          if (v1.headD ' ' = '"' && v1.getLast? = some '"') ||
             (v1.headD ' ' = '\x27' && v1.getLast? = some '\x27') then
            (v1.drop 1).dropLast
          else v1
        if key.isEmpty then config
        else dictInsert config ⟨key⟩ ⟨value⟩

/-- The whole fallback pass over the (already normalized) text. -/
def fallbackDict (cs : List Char) : List (String × String) :=
  (splitLines cs).foldl fallbackLine []

/-- The `ValueError` message raised when every strategy fails (lines
697-702). -/
def parseErrMsg : String :=
  "Unable to parse Firebase configuration. Please check the format.\nSupported formats:\n- JSON: \x7b\"apiKey\":\"value\",\"authDomain\":\"value\"\x7d\n- Unquoted keys: \x7bapiKey:\x27value\x27,authDomain:\x27value\x27\x7d\n- Mixed quotes: \x7bapiKey:\"value\",authDomain:\x27value\x27\x7d\n- Multiline with whitespace"

/-- The text transformation applied when the direct JSON parse fails (lines
603-630): strip comments per line, wrap in braces when the stripped text
does not start with `{`, quote bare keys, rewrite single-quoted values, drop
trailing commas.  The fallback then runs on this mutated text. -/
def normalize_config_text (cs : List Char) : List Char :=
  let c1 := stripCommentsText cs
  let c2 :=
    if ¬ ((pyStripList c1).headD ' ' = '\x7b') then '\x7b' :: c1 ++ ['\x7d']
    else c1
  trailingCommaSub (singleQuoteSub (quoteKeys c2))

/-- Model of `parse_firebase_config` (lines 591-702): direct `json.loads` on
the stripped input; else `json.loads` of the normalized text; else the
line-by-line fallback on the normalized text; else `ValueError`. -/
def parse_firebase_config (s : String) : Except String Json :=
  let cs := pyStripList s.data
  match jsonLoadsL cs with
  | some j => Except.ok j
  | none =>
    let t := normalize_config_text cs
    match jsonLoadsL t with
    | some j => Except.ok j
    | none =>
      let d := fallbackDict t
      if d.isEmpty then Except.error parseErrMsg
      else Except.ok (Json.obj (d.map (fun kv => (kv.1, Json.str kv.2))))

/-- Python `str.replace(pat, rep)`: replace all non-overlapping occurrences
left to right (fueled; `pat` is never empty here). -/
def strReplaceF : Nat → List Char → List Char → List Char → List Char
  | 0, _, _, cs => cs
  | _ + 1, _, _, [] => []
  | f + 1, pat, rep, c :: cs =>
    if pat.isPrefixOf (c :: cs) then
      rep ++ strReplaceF f pat rep ((c :: cs).drop pat.length)
    else c :: strReplaceF f pat rep cs

/-- Python `str.replace`. -/
def strReplace (s pat rep : String) : String :=
  ⟨strReplaceF (s.data.length + 1) pat.data rep.data s.data⟩

/-- The auth-type cleanup used in result filenames:
`.replace(' ', '-').replace('(', '').replace(')', '')`. -/
def authClean (authType : String) : String :=
  strReplace (strReplace (strReplace authType " " "-") "(" "") ")" ""

/-- An HTTP request as issued by the tool. -/
structure Req where
  method : String
  url : String
  headers : List (String × String)
  body : Option String
deriving Repr, DecidableEq

/-- The outcome of one HTTP request: a response with status and the result
of `response.json()` (`Except.error` models `.json()` raising), or a raised
exception (`isTimeout` distinguishes `requests.exceptions.Timeout`). -/
inductive Resp where
  | ok (status : Nat) (body : Except String Json)
  | exc (isTimeout : Bool) (msg : String)

/-- Observable actions of a probe: console lines, network requests, files
written.  Debug-mode output is not modeled. -/
inductive Ev where
  | printed (s : String)
  | request (r : Req)
  | saved (filename : String)
deriving Repr, DecidableEq

/-- The network requests recorded in a list of events. -/
def requestsOf (evs : List Ev) : List Req :=
  evs.filterMap (fun e => match e with | Ev.request r => some r | _ => none)

/-- The authentication contexts iterated by each probe (e.g. lines
114-126): anonymous always; when an idToken was captured also the legacy
Bearer header and the alternate Firebase scheme, labelled as the code
derives the labels from the headers. -/
def auth_contexts (tok : Option String) : List (Option String × String) :=
  match tok with
  | none => [(none, "anonymous")]
  | some t =>
    [(none, "anonymous"),
     (some ("Bearer " ++ t), "authenticated (Bearer)"),
     (some ("Firebase " ++ t), "authenticated (Firebase)")]

/-- Headers carrying only the optional Authorization value. -/
def authHeaders : Option String → List (String × String)
  | none => []
  | some v => [("Authorization", v)]

/-- Object member lookup on a decoded JSON value. -/
def jGet (j : Json) (k : String) : Option Json :=
  match j with
  | Json.obj kvs => lookupD kvs k
  | _ => none

/-- Python `k in result` for a decoded JSON object (non-dict values modeled
as not containing any key). -/
def jHasKey (j : Json) (k : String) : Bool := (jGet j k).isSome

/-- Result filename of the database sweep (line 291). -/
def db_result_filename (endpoint authType : String) : String :=
  "database-" ++ strReplace (strReplace endpoint "/" "") ".json" "" ++ "-" ++
    authClean authType ++ ".json"

/-- Result filename of the Firestore sweep (line 533). -/
def firestore_result_filename (collection authType : String) : String :=
  "firestore-" ++ collection ++ "-" ++ authClean authType ++ ".json"

/-- Result filename of the storage listing (line 144). -/
def storage_result_filename (authType : String) : String :=
  "storage-listing-" ++ authClean authType ++ ".json"

/-- Model of `FirebaseConfigTester.check_registration` (lines 69-101), the
only writer of `id_token`: on a 200 response the token becomes
`result.get('idToken')`, every other path leaves it unchanged. -/
def check_registration (cfg : List (String × String)) (email password : String)
    (env : Req → Resp) (tok : Option String) : List Ev × Option String :=
  match lookupD cfg "apiKey" with
  | none => ([Ev.printed "No apiKey provided, skipping registration check"], tok)
  | some key =>
    let url := "https://identitytoolkit.googleapis.com/v1/accounts:signUp?key=" ++ key
    let req : Req :=
      ⟨"POST", url, [("Content-Type", "application/json")],
        some ⟨dumpVal (Json.obj
          [("email", Json.str email), ("password", Json.str password),
           ("returnSecureToken", Json.bool true)])⟩⟩
    match env req with
    | Resp.ok status body =>
      if status = 200 then
        match body with
        | Except.ok j =>
          ([Ev.request req, Ev.printed "✓ Registration successful with apiKey"],
            match jGet j "idToken" with
            | some (Json.str t) => some t
            | some other => some (pyStr other)
            | none => none)
        | Except.error e =>
          ([Ev.request req, Ev.printed "✓ Registration successful with apiKey",
            Ev.printed ("✗ Registration check error: " ++ e)], tok)
      else if status = 400 then
        ([Ev.request req, Ev.printed "✗ Registration not allowed (status: 400)"], tok)
      else
        ([Ev.request req,
          Ev.printed ("✗ Registration check failed (status: " ++ natStr status ++ ")")],
          tok)
    | Resp.exc _ m =>
      ([Ev.request req, Ev.printed ("✗ Registration check error: " ++ m)], tok)

/-- Events of the Firebase-Storage listing attempt for one auth context
(lines 128-156): on 200 the listing is saved unconditionally (a `.json()`
failure only prints a notice); 404 is reported; all other statuses print a
generic failed line. -/
def storage_api_events (authType url : String) (r : Resp) : List Ev :=
  match r with
  | Resp.ok status body =>
    if status = 200 then
      [Ev.printed ("✓ Storage bucket accessible (" ++ authType ++ ")"),
       Ev.printed ("  URL: " ++ url)] ++
      (match body with
       | Except.ok _ =>
         [Ev.saved (storage_result_filename authType),
          Ev.printed ("  Listing saved to " ++ storage_result_filename authType)]
       | Except.error e => [Ev.printed ("  Could not save listing: " ++ e)])
    else if status = 404 then
      [Ev.printed ("✗ Storage bucket not found (" ++ authType ++ ")")]
    else
      [Ev.printed ("✗ Storage bucket check failed (" ++ authType ++ ", status: " ++
        natStr status ++ ")")]
  | Resp.exc _ m =>
    [Ev.printed ("✗ Storage bucket check error (" ++ authType ++ "): " ++ m)]

/-- Events of the Google-Cloud-Storage attempt for one auth context (lines
158-171); only status 200 produces output. -/
def gcs_events (authType url : String) (r : Resp) : List Ev :=
  match r with
  | Resp.ok status _ =>
    if status = 200 then
      [Ev.printed ("✓ Google Cloud Storage accessible (" ++ authType ++ ")"),
       Ev.printed ("  URL: " ++ url)]
    else []
  | Resp.exc _ m =>
    [Ev.printed ("✗ Google Cloud Storage check error (" ++ authType ++ "): " ++ m)]

/-- Both storage requests of one auth context. -/
def storage_ctx_events (sb : String) (env : Req → Resp)
    (ctx : Option String × String) : List Ev :=
  let url1 := "https://firebasestorage.googleapis.com/v0/b/" ++ sb ++ "/o"
  let req1 : Req := ⟨"GET", url1, authHeaders ctx.1, none⟩
  let url2 := "https://storage.googleapis.com/" ++ sb ++ "/"
  let req2 : Req := ⟨"GET", url2, authHeaders ctx.1, none⟩
  (Ev.request req1 :: storage_api_events ctx.2 url1 (env req1)) ++
  (Ev.request req2 :: gcs_events ctx.2 url2 (env req2))

/-- Model of `check_storage_bucket` (lines 103-171). -/
def check_storage_bucket (cfg : List (String × String)) (env : Req → Resp)
    (tok : Option String) : List Ev × Option String :=
  match lookupD cfg "storageBucket" with
  | none => ([Ev.printed "No storageBucket provided, skipping check"], tok)
  | some sb =>
    (Ev.printed ("\nChecking storage bucket: " ++ sb) ::
      (auth_contexts tok).foldr (fun ctx acc => storage_ctx_events sb env ctx ++ acc) [],
      tok)

/-- Headers of the upload request (lines 186-195): Content-Type always,
preceded by the Authorization header in authenticated contexts. -/
def uploadHeaders : Option String → List (String × String)
  | none => [("Content-Type", "application/json")]
  | some v => [("Authorization", v), ("Content-Type", "application/json")]

/-- One upload-then-verify attempt of `check_storage_upload` (lines
197-227); the verification GET carries no headers. -/
def upload_ctx_events (sb fname rnd : String) (env : Req → Resp)
    (ctx : Option String × String) : List Ev :=
  let url := "https://firebasestorage.googleapis.com/v0/b/" ++ sb ++ "/o?name=" ++ fname
  let req : Req :=
    ⟨"POST", url, uploadHeaders ctx.1, some ⟨dumpVal (Json.obj [("poc", Json.str rnd)])⟩⟩
  Ev.request req ::
  match env req with
  | Resp.ok status _ =>
    if status = 200 then
      Ev.printed ("✓ Upload successful (" ++ ctx.2 ++ ")") ::
      (let vurl := "https://firebasestorage.googleapis.com/v0/b/" ++ sb ++ "/o/" ++
        fname ++ "?alt=media"
       let vreq : Req := ⟨"GET", vurl, [], none⟩
       Ev.request vreq ::
       match env vreq with
       | Resp.ok vs _ =>
         if vs = 200 then
           [Ev.printed ("✓ Upload verified (" ++ ctx.2 ++ ")"),
            Ev.printed ("  URL: " ++ vurl)]
         else []
       | Resp.exc _ m =>
         [Ev.printed ("✗ Upload check error (" ++ ctx.2 ++ "): " ++ m)])
    else
      [Ev.printed ("✗ Upload failed (" ++ ctx.2 ++ ", status: " ++ natStr status ++ ")")]
  | Resp.exc _ m => [Ev.printed ("✗ Upload check error (" ++ ctx.2 ++ "): " ++ m)]

/-- Model of `check_storage_upload` (lines 173-227). -/
def check_storage_upload (cfg : List (String × String)) (rnd : String)
    (env : Req → Resp) (tok : Option String) : List Ev × Option String :=
  match lookupD cfg "storageBucket" with
  | none => ([Ev.printed "No storageBucket provided, skipping upload check"], tok)
  | some sb =>
    let fname := "poc_" ++ rnd ++ ".json"
    (Ev.printed "\nChecking storage upload capability" ::
      (auth_contexts tok).foldr
        (fun ctx acc => upload_ctx_events sb fname rnd env ctx ++ acc) [],
      tok)

/-- One PUT-then-verify write attempt of `check_database_url` (lines
340-360 and 384-404); a verification GET of the same URL follows a 200, and
an exception anywhere in the block prints the block's error line. -/
def db_put_block (env : Req → Resp) (auth : Option String)
    (url bodyStr okMsg verMsg failPre errPre : String) : List Ev :=
  let req : Req := ⟨"PUT", url, authHeaders auth, some bodyStr⟩
  Ev.request req ::
  match env req with
  | Resp.ok status _ =>
    if status = 200 then
      Ev.printed okMsg ::
      (let vreq : Req := ⟨"GET", url, authHeaders auth, none⟩
       Ev.request vreq ::
       match env vreq with
       | Resp.ok vs _ =>
         if vs = 200 then [Ev.printed verMsg, Ev.printed ("  URL: " ++ url)] else []
       | Resp.exc _ m => [Ev.printed (errPre ++ m)])
    else [Ev.printed (failPre ++ natStr status ++ ")")]
  | Resp.exc _ m => [Ev.printed (errPre ++ m)]

/-- One POST write attempt (lines 362-382 and 406-426); on 200 the response
JSON is echoed as the created ID, silently skipped when unparseable. -/
def db_post_block (env : Req → Resp) (auth : Option String)
    (url bodyStr okMsg failPre errPre : String) : List Ev :=
  let req : Req := ⟨"POST", url, authHeaders auth, some bodyStr⟩
  Ev.request req ::
  match env req with
  | Resp.ok status body =>
    if status = 200 then
      Ev.printed okMsg ::
      (match body with
       | Except.ok j => [Ev.printed ("  Created with ID: " ++ pyStr j)]
       | Except.error _ => [])
    else [Ev.printed (failPre ++ natStr status ++ ")")]
  | Resp.exc _ m => [Ev.printed (errPre ++ m)]

/-- The four write attempts (nested `/o/` PUT and POST, then direct PUT and
POST) of one auth context of `check_database_url`. -/
def db_write_ctx (dbURL rnd : String) (env : Req → Resp)
    (ctx : Option String × String) : List Ev :=
  let a := ctx.2
  let bodyStr : String := ⟨dumpVal (Json.obj [("poc", Json.str rnd)])⟩
  db_put_block env ctx.1 (dbURL ++ "/o/poc_" ++ rnd ++ ".json") bodyStr
    ("✓ Database PUT successful with /o/ (" ++ a ++ ")")
    ("✓ Database PUT verified (" ++ a ++ ")")
    ("✗ Database PUT failed with /o/ (" ++ a ++ ", status: ")
    ("✗ Database PUT error with /o/ (" ++ a ++ "): ") ++
  db_post_block env ctx.1 (dbURL ++ "/o/poc_" ++ rnd ++ "_post.json") bodyStr
    ("✓ Database POST successful with /o/ (" ++ a ++ ")")
    ("✗ Database POST failed with /o/ (" ++ a ++ ", status: ")
    ("✗ Database POST error with /o/ (" ++ a ++ "): ") ++
  db_put_block env ctx.1 (dbURL ++ "/poc_" ++ rnd ++ ".json") bodyStr
    ("✓ Direct database PUT successful (" ++ a ++ ")")
    ("✓ Direct database PUT verified (" ++ a ++ ")")
    ("✗ Direct database PUT failed (" ++ a ++ ", status: ")
    ("✗ Direct database PUT error (" ++ a ++ "): ") ++
  db_post_block env ctx.1 (dbURL ++ "/poc_" ++ rnd ++ "_post.json") bodyStr
    ("✓ Direct database POST successful (" ++ a ++ ")")
    ("✗ Direct database POST failed (" ++ a ++ ", status: ")
    ("✗ Direct database POST error (" ++ a ++ "): ")

/-- Model of `check_database_url` (lines 315-426). -/
def check_database_url (cfg : List (String × String)) (rnd : String)
    (env : Req → Resp) (tok : Option String) : List Ev × Option String :=
  match lookupD cfg "databaseURL" with
  | none => ([Ev.printed "No databaseURL provided, skipping database checks"], tok)
  | some dbURL =>
    (Ev.printed ("\nChecking database URL: " ++ dbURL) ::
      (auth_contexts tok).foldr (fun ctx acc => db_write_ctx dbURL rnd env ctx ++ acc) [],
      tok)

/-- The fixed catalog of Realtime-Database child paths (lines 240-258). -/
def db_endpoints : List String :=
  ["/.json", "/Users.json", "/users.json", "/Logs.json", "/logs.json",
   "/Messages.json", "/messages.json", "/Posts.json", "/posts.json",
   "/Comments.json", "/comments.json", "/Profiles.json", "/profiles.json",
   "/Settings.json", "/settings.json", "/Config.json", "/config.json"]

/-- Events produced for one database-endpoint response (lines 282-308): 200
prints an accessible line and saves non-empty data; 401 prints a
requires-auth line; 404 is silent; other statuses print a generic status
line; a timeout prints a timeout line; other exceptions are silent. -/
def db_endpoint_events (authType endpoint : String) (r : Resp) : List Ev :=
  match r with
  | Resp.ok status body =>
    if status = 200 then
      Ev.printed ("✓ Database endpoint accessible (" ++ authType ++ "): " ++ endpoint) ::
      (match body with
       | Except.ok j =>
         if pyTruthy j then
           [Ev.saved (db_result_filename endpoint authType),
            Ev.printed ("  Data saved to " ++ db_result_filename endpoint authType)]
         else []
       | Except.error e => [Ev.printed ("  Could not parse/save data: " ++ e)])
    else if status = 401 then
      [Ev.printed ("✗ Database endpoint requires auth (" ++ authType ++ "): " ++ endpoint)]
    else if status = 404 then []
    else
      [Ev.printed ("- Database endpoint status " ++ natStr status ++ " (" ++ authType ++
        "): " ++ endpoint)]
  | Resp.exc true _ =>
    [Ev.printed ("- Database endpoint timeout (" ++ authType ++ "): " ++ endpoint)]
  | Resp.exc false _ => []

/-- One auth context of the database sweep, including its summary line. -/
def db_sweep_ctx (databaseURL : String) (env : Req → Resp)
    (ctx : Option String × String) : List Ev :=
  let evs := db_endpoints.foldr
    (fun ep acc =>
      let req : Req := ⟨"GET", databaseURL ++ ep, authHeaders ctx.1, none⟩
      (Ev.request req :: db_endpoint_events ctx.2 ep (env req)) ++ acc) []
  let n := (db_endpoints.filter (fun ep =>
    match env ⟨"GET", databaseURL ++ ep, authHeaders ctx.1, none⟩ with
    | Resp.ok 200 _ => true
    | _ => false)).length
  evs ++
    (if n ≠ 0 then
      [Ev.printed ("\nSummary (" ++ ctx.2 ++ "): Found " ++ natStr n ++
        " accessible endpoints")]
     else [Ev.printed ("\nSummary (" ++ ctx.2 ++ "): No accessible endpoints found")])

/-- Model of `check_database_accessibility` (lines 229-313). -/
def check_database_accessibility (cfg : List (String × String)) (env : Req → Resp)
    (tok : Option String) : List Ev × Option String :=
  match lookupD cfg "databaseURL" with
  | none => ([Ev.printed "No databaseURL provided, skipping accessibility checks"], tok)
  | some dbURL =>
    (Ev.printed "\nChecking database general accessibility" ::
      (auth_contexts tok).foldr (fun ctx acc => db_sweep_ctx dbURL env ctx ++ acc) [],
      tok)

/-- Model of `check_remote_config` (lines 428-462). -/
def check_remote_config (cfg : List (String × String)) (env : Req → Resp)
    (tok : Option String) : List Ev × Option String :=
  match lookupD cfg "apiKey", lookupD cfg "messagingSenderId", lookupD cfg "appId" with
  | some key, some sid, some appId =>
    let url := "https://firebaseremoteconfig.googleapis.com/v1/projects/" ++ sid ++
      "/namespaces/firebase:fetch?key=" ++ key
    let req : Req :=
      ⟨"POST", url, [("Content-Type", "application/json")],
        some ⟨dumpVal (Json.obj
          [("appId", Json.str appId), ("appInstanceId", Json.str "PROD")])⟩⟩
    (Ev.printed "\nChecking remote config access" :: Ev.request req ::
      (match env req with
       | Resp.ok status body =>
         if status = 200 then
           match body with
           | Except.ok j =>
             if jHasKey j "entries" then
               [Ev.printed "✓ Remote config accessible", Ev.saved "remoteconfig.json",
                Ev.printed "  Config saved to remoteconfig.json"]
             else
               match jGet j "state" with
               | some (Json.str st) =>
                 if st = "NO_TEMPLATE" then
                   [Ev.printed "- Remote config: No template configured"]
                 else [Ev.printed "✗ Remote config check: Unknown response"]
               | _ => [Ev.printed "✗ Remote config check: Unknown response"]
           | Except.error e => [Ev.printed ("✗ Remote config check error: " ++ e)]
         else
           [Ev.printed ("✗ Remote config check failed (status: " ++ natStr status ++ ")")]
       | Resp.exc _ m => [Ev.printed ("✗ Remote config check error: " ++ m)]),
      tok)
  | _, _, _ =>
    ([Ev.printed
        "Missing required fields for remote config check (apiKey, messagingSenderId, appId)"],
      tok)

/-- The fixed catalog of Firestore collection names (lines 495-500). -/
def firestore_collections : List String :=
  ["users", "Users", "log", "Log", "logs", "Logs", "upload", "Upload",
   "uploads", "Uploads", "images", "Images", "files", "Files", "settings",
   "Settings", "messages", "Messages", "config", "Config"]

/-- The Firestore document-listing URL of one collection (line 518). -/
def firestore_url (projectId collection : String) : String :=
  "https://firestore.googleapis.com/v1/projects/" ++ projectId ++
    "/databases/(default)/documents/" ++ collection

/-- Events produced for one Firestore-collection response (lines 524-552):
like the database sweep, but 403 has its own access-denied line and data is
saved only when the body carries a `documents` key. -/
def firestore_collection_events (authType collection : String) (r : Resp) : List Ev :=
  match r with
  | Resp.ok status body =>
    if status = 200 then
      Ev.printed ("✓ Firestore collection accessible (" ++ authType ++ "): " ++ collection) ::
      (match body with
       | Except.ok j =>
         if pyTruthy j && jHasKey j "documents" then
           [Ev.saved (firestore_result_filename collection authType),
            Ev.printed ("  Collection data saved to " ++
              firestore_result_filename collection authType)]
         else []
       | Except.error e =>
         [Ev.printed ("  Could not parse/save collection data: " ++ e)])
    else if status = 401 then
      [Ev.printed ("✗ Firestore collection requires auth (" ++ authType ++ "): " ++
        collection)]
    else if status = 403 then
      [Ev.printed ("✗ Firestore collection access denied (" ++ authType ++ "): " ++
        collection)]
    else if status = 404 then []
    else
      [Ev.printed ("- Firestore collection status " ++ natStr status ++ " (" ++
        authType ++ "): " ++ collection)]
  | Resp.exc true _ =>
    [Ev.printed ("- Firestore collection timeout (" ++ authType ++ "): " ++ collection)]
  | Resp.exc false _ => []

/-- One auth context of the Firestore sweep, including its summary line. -/
def firestore_sweep_ctx (projectId : String) (env : Req → Resp)
    (ctx : Option String × String) : List Ev :=
  let evs := firestore_collections.foldr
    (fun c acc =>
      let req : Req := ⟨"GET", firestore_url projectId c, authHeaders ctx.1, none⟩
      (Ev.request req :: firestore_collection_events ctx.2 c (env req)) ++ acc) []
  let n := (firestore_collections.filter (fun c =>
    match env ⟨"GET", firestore_url projectId c, authHeaders ctx.1, none⟩ with
    | Resp.ok 200 _ => true
    | _ => false)).length
  evs ++
    (if n ≠ 0 then
      [Ev.printed ("\nFirestore Summary (" ++ ctx.2 ++ "): Found " ++ natStr n ++
        " accessible collections")]
     else
      [Ev.printed ("\nFirestore Summary (" ++ ctx.2 ++
        "): No accessible collections found")])

/-- Model of `check_firestore_collections` (lines 484-557). -/
def check_firestore_collections (cfg : List (String × String)) (env : Req → Resp)
    (tok : Option String) : List Ev × Option String :=
  match lookupD cfg "projectId" with
  | none =>
    ([Ev.printed "No projectId provided, skipping Firestore collection checks"], tok)
  | some pid =>
    (Ev.printed "\nChecking Firestore collections accessibility" ::
      (auth_contexts tok).foldr (fun ctx acc => firestore_sweep_ctx pid env ctx ++ acc) [],
      tok)

/-- Response handling of the crash-report probe (lines 476-482). -/
def crash_resp_events : Resp → List Ev
  | Resp.ok status _ =>
    if status = 200 then [Ev.printed "✓ Crashlytics data accessible"]
    else [Ev.printed ("✗ Crashlytics not accessible (status: " ++ natStr status ++ ")")]
  | Resp.exc _ m => [Ev.printed ("✗ Crashlytics check error: " ++ m)]

/-- Model of `check_crashlytics` (lines 464-482): requires only `appId` and
`apiKey`; a missing `projectId` is substituted by the literal `unknown` via
`config.get('projectId', 'unknown')`. -/
def check_crashlytics (cfg : List (String × String)) (env : Req → Resp)
    (tok : Option String) : List Ev × Option String :=
  match lookupD cfg "appId", lookupD cfg "apiKey" with
  | some appId, some key =>
    let url := "https://firebasecrashlytics.googleapis.com/v1/projects/" ++
      ((lookupD cfg "projectId").getD "unknown") ++ "/apps/" ++ appId ++ "/issues"
    let req : Req := ⟨"GET", url, [("X-Goog-Api-Key", key)], none⟩
    (Ev.printed "\nChecking Crashlytics access" :: Ev.request req ::
      crash_resp_events (env req), tok)
  | _, _ => ([Ev.printed "Missing required fields for Crashlytics check"], tok)

/-- Identifiers of the eight probes, named after what they test. -/
inductive ProbeId where
  | registration
  | storageRead
  | storageWrite
  | databaseWrite
  | databaseReadSweep
  | remoteConfig
  | firestoreSweep
  | crashReport
deriving Repr, DecidableEq

/-- Model of `run_all_checks` (lines 559-588): the eight probe methods
invoked in source order, threading the only piece of cross-probe state
(`id_token`); each step is labelled with its probe identifier. -/
def run_all_checks (cfg : List (String × String)) (rnd email password : String)
    (env : Req → Resp) : List (ProbeId × List Ev) × Option String :=
  let r1 := check_registration cfg email password env none
  let r2 := check_storage_bucket cfg env r1.2
  let r3 := check_storage_upload cfg rnd env r2.2
  let r4 := check_database_url cfg rnd env r3.2
  let r5 := check_database_accessibility cfg env r4.2
  let r6 := check_remote_config cfg env r5.2
  let r7 := check_firestore_collections cfg env r6.2
  let r8 := check_crashlytics cfg env r7.2
  ([(ProbeId.registration, r1.1), (ProbeId.storageRead, r2.1),
    (ProbeId.storageWrite, r3.1), (ProbeId.databaseWrite, r4.1),
    (ProbeId.databaseReadSweep, r5.1), (ProbeId.remoteConfig, r6.1),
    (ProbeId.firestoreSweep, r7.1), (ProbeId.crashReport, r8.1)], r8.2)

/-- The invocation order of the probes in one run. -/
def probeSequence (cfg : List (String × String)) (rnd email password : String)
    (env : Req → Resp) : List ProbeId :=
  ((run_all_checks cfg rnd email password env).1).map Prod.fst

/-- The value of `id_token` before the first probe, between consecutive
probes, and after the last one (nine states). -/
def tokenTrace (cfg : List (String × String)) (rnd email password : String)
    (env : Req → Resp) : List (Option String) :=
  let r1 := check_registration cfg email password env none
  let r2 := check_storage_bucket cfg env r1.2
  let r3 := check_storage_upload cfg rnd env r2.2
  let r4 := check_database_url cfg rnd env r3.2
  let r5 := check_database_accessibility cfg env r4.2
  let r6 := check_remote_config cfg env r5.2
  let r7 := check_firestore_collections cfg env r6.2
  let r8 := check_crashlytics cfg env r7.2
  [none, r1.2, r2.2, r3.2, r4.2, r5.2, r6.2, r7.2, r8.2]

/-! Theorems about the claims. -/

/-- A concrete environment for closed instances: every request raises a
connection error. -/
def env0 : Req → Resp := fun _ => Resp.exc false "connection error"

/-- C8: for the input `{apiKey:"X",authDomain:'Y'}` — unquoted keys and
mixed quote styles — the parser yields exactly the mapping
`{"apiKey": "X", "authDomain": "Y"}` (the JS-object-literal normalization
quotes the bare keys and rewrites the single-quoted value, and the result
parses as strict JSON). -/
theorem c8_mixed_quotes :
    parse_firebase_config "\x7bapiKey:\"X\",authDomain:\x27Y\x27\x7d" =
      Except.ok (Json.obj [("apiKey", Json.str "X"), ("authDomain", Json.str "Y")]) :=
  rfl

/-- C6: evaluation of the code at the failing input.  The claim requires the
URL value of `{databaseURL: "https://proj.firebaseio.com"}` to be recovered
intact, the split happening at the first colon outside quotes.  Instead the
comment-stripping regex `//.*$` (which runs before any quote-aware logic)
truncates the line at the `//` inside the quoted URL, and the fallback then
returns a mangled mapping. -/
theorem c6_url_value_mangled :
    parse_firebase_config "\x7bdatabaseURL: \"https://proj.firebaseio.com\"\x7d" =
      Except.ok (Json.obj [("\x7b\"databaseURL", Json.str "\"https:")]) :=
  rfl

/-- C1 counterexample: the empty input does not fail with a ParseError — the
brace-wrapping step turns it into `{}`, which the normalization strategy
decodes to the empty mapping. -/
theorem c1_empty_input_returns_empty_map :
    parse_firebase_config "" = Except.ok (Json.obj []) :=
  rfl

/-- C5 counterexample: at a concrete configuration and environment the run
sequence differs from the seven-probe order the claim states (the Firestore
collection sweep, absent from the claim, runs between remote-config and the
crash-report check). -/
theorem c5_order_counterexample :
    probeSequence [] "r" "test@bugbounty.com" "TestPassword123!" env0 ≠
      [ProbeId.registration, ProbeId.storageRead, ProbeId.storageWrite,
       ProbeId.databaseWrite, ProbeId.databaseReadSweep, ProbeId.remoteConfig,
       ProbeId.crashReport] := by
  decide

/-- C5 amended: for every configuration, random suffix, credentials and
environment, the runner invokes exactly registration → storage-read →
storage-write → database-write → database-read-sweep → remote-config →
firestore-collection-sweep → crash-report-access, in this fixed order. -/
theorem c5_amended_order (cfg : List (String × String)) (rnd email password : String)
    (env : Req → Resp) :
    probeSequence cfg rnd email password env =
      [ProbeId.registration, ProbeId.storageRead, ProbeId.storageWrite,
       ProbeId.databaseWrite, ProbeId.databaseReadSweep, ProbeId.remoteConfig,
       ProbeId.firestoreSweep, ProbeId.crashReport] :=
  rfl

/-- The storage-read probe never writes `id_token`. -/
theorem storage_bucket_keeps_token (cfg : List (String × String)) (env : Req → Resp)
    (tok : Option String) : (check_storage_bucket cfg env tok).2 = tok := by
  unfold check_storage_bucket
  cases lookupD cfg "storageBucket" <;> rfl

/-- The storage-write probe never writes `id_token`. -/
theorem storage_upload_keeps_token (cfg : List (String × String)) (rnd : String)
    (env : Req → Resp) (tok : Option String) :
    (check_storage_upload cfg rnd env tok).2 = tok := by
  unfold check_storage_upload
  cases lookupD cfg "storageBucket" <;> rfl

/-- The database-write probe never writes `id_token`. -/
theorem database_url_keeps_token (cfg : List (String × String)) (rnd : String)
    (env : Req → Resp) (tok : Option String) :
    (check_database_url cfg rnd env tok).2 = tok := by
  unfold check_database_url
  cases lookupD cfg "databaseURL" <;> rfl

/-- The database-read sweep never writes `id_token`. -/
theorem database_accessibility_keeps_token (cfg : List (String × String))
    (env : Req → Resp) (tok : Option String) :
    (check_database_accessibility cfg env tok).2 = tok := by
  unfold check_database_accessibility
  cases lookupD cfg "databaseURL" <;> rfl

/-- The remote-config probe never writes `id_token`. -/
theorem remote_config_keeps_token (cfg : List (String × String)) (env : Req → Resp)
    (tok : Option String) : (check_remote_config cfg env tok).2 = tok := by
  unfold check_remote_config
  cases lookupD cfg "apiKey" <;> cases lookupD cfg "messagingSenderId" <;>
    cases lookupD cfg "appId" <;> rfl

/-- The Firestore sweep never writes `id_token`. -/
theorem firestore_keeps_token (cfg : List (String × String)) (env : Req → Resp)
    (tok : Option String) : (check_firestore_collections cfg env tok).2 = tok := by
  unfold check_firestore_collections
  cases lookupD cfg "projectId" <;> rfl

/-- The crash-report probe never writes `id_token`. -/
theorem crashlytics_keeps_token (cfg : List (String × String)) (env : Req → Resp)
    (tok : Option String) : (check_crashlytics cfg env tok).2 = tok := by
  unfold check_crashlytics
  cases lookupD cfg "appId" <;> cases lookupD cfg "apiKey" <;> rfl

/-- C9: during a run the credential moves only one way.  It starts absent,
and the whole state trace is the registration result repeated: only the
registration probe (on a 200 response) ever writes `id_token`, and no later
probe clears or overwrites it. -/
theorem c9_token_one_way (cfg : List (String × String)) (rnd email password : String)
    (env : Req → Resp) :
    tokenTrace cfg rnd email password env =
      none :: List.replicate 8 (check_registration cfg email password env none).2 := by
  unfold tokenTrace
  simp only [storage_bucket_keeps_token, storage_upload_keeps_token,
    database_url_keeps_token, database_accessibility_keeps_token,
    remote_config_keeps_token, firestore_keeps_token, crashlytics_keeps_token,
    List.replicate]

/-- C7: every probe whose precondition fails reports the skip and performs
no network call.  For each of the eight probes, when its required config
field(s) are absent the probe returns exactly its skip line — in particular
zero request events — with the credential unchanged: registration needs
`apiKey`; storage read and write need `storageBucket`; database write and
the database read sweep need `databaseURL`; remote config needs all of
`apiKey`, `messagingSenderId`, `appId`; the Firestore sweep needs
`projectId`; the crash-report probe needs `appId` and `apiKey`. -/
theorem c7_precondition_skips (cfg : List (String × String))
    (rnd email password : String) (env : Req → Resp) (tok : Option String) :
    (lookupD cfg "apiKey" = none →
      check_registration cfg email password env tok =
        ([Ev.printed "No apiKey provided, skipping registration check"], tok)) ∧
    (lookupD cfg "storageBucket" = none →
      check_storage_bucket cfg env tok =
        ([Ev.printed "No storageBucket provided, skipping check"], tok)) ∧
    (lookupD cfg "storageBucket" = none →
      check_storage_upload cfg rnd env tok =
        ([Ev.printed "No storageBucket provided, skipping upload check"], tok)) ∧
    (lookupD cfg "databaseURL" = none →
      check_database_url cfg rnd env tok =
        ([Ev.printed "No databaseURL provided, skipping database checks"], tok)) ∧
    (lookupD cfg "databaseURL" = none →
      check_database_accessibility cfg env tok =
        ([Ev.printed "No databaseURL provided, skipping accessibility checks"], tok)) ∧
    ((lookupD cfg "apiKey" = none ∨ lookupD cfg "messagingSenderId" = none ∨
        lookupD cfg "appId" = none) →
      check_remote_config cfg env tok =
        ([Ev.printed
            "Missing required fields for remote config check (apiKey, messagingSenderId, appId)"],
          tok)) ∧
    (lookupD cfg "projectId" = none →
      check_firestore_collections cfg env tok =
        ([Ev.printed "No projectId provided, skipping Firestore collection checks"],
          tok)) ∧
    ((lookupD cfg "appId" = none ∨ lookupD cfg "apiKey" = none) →
      check_crashlytics cfg env tok =
        ([Ev.printed "Missing required fields for Crashlytics check"], tok)) := by
  refine ⟨?_, ?_, ?_, ?_, ?_, ?_, ?_, ?_⟩
  · intro h
    unfold check_registration
    rw [h]
  · intro h
    unfold check_storage_bucket
    rw [h]
  · intro h
    unfold check_storage_upload
    rw [h]
  · intro h
    unfold check_database_url
    rw [h]
  · intro h
    unfold check_database_accessibility
    rw [h]
  · intro h
    unfold check_remote_config
    rcases hA : lookupD cfg "apiKey" with _ | k <;>
      rcases hB : lookupD cfg "messagingSenderId" with _ | sid <;>
      rcases hC : lookupD cfg "appId" with _ | appId <;>
      simp_all
  · intro h
    unfold check_firestore_collections
    rw [h]
  · intro h
    unfold check_crashlytics
    rcases hA : lookupD cfg "appId" with _ | appId <;>
      rcases hB : lookupD cfg "apiKey" with _ | k <;>
      simp_all

/-- C7 witness: with the empty ConfigMap, every one of the eight probes is
skipped with its own notice and no network call. -/
theorem c7_witness :
    check_registration [] "e@x.com" "pw" env0 none =
      ([Ev.printed "No apiKey provided, skipping registration check"], none) ∧
    check_storage_bucket [] env0 none =
      ([Ev.printed "No storageBucket provided, skipping check"], none) ∧
    check_storage_upload [] "r" env0 none =
      ([Ev.printed "No storageBucket provided, skipping upload check"], none) ∧
    check_database_url [] "r" env0 none =
      ([Ev.printed "No databaseURL provided, skipping database checks"], none) ∧
    check_database_accessibility [] env0 none =
      ([Ev.printed "No databaseURL provided, skipping accessibility checks"], none) ∧
    check_remote_config [] env0 none =
      ([Ev.printed
          "Missing required fields for remote config check (apiKey, messagingSenderId, appId)"],
        none) ∧
    check_firestore_collections [] env0 none =
      ([Ev.printed "No projectId provided, skipping Firestore collection checks"],
        none) ∧
    check_crashlytics [] env0 none =
      ([Ev.printed "Missing required fields for Crashlytics check"], none) := by
  obtain ⟨h1, h2, h3, h4, h5, h6, h7, h8⟩ :=
    c7_precondition_skips [] "r" "e@x.com" "pw" env0 none
  exact ⟨h1 rfl, h2 rfl, h3 rfl, h4 rfl, h5 rfl, h6 (Or.inl rfl), h7 rfl,
    h8 (Or.inl rfl)⟩

/-- C10: the crash-report probe requires only `apiKey` and `appId`.  When
`projectId` is absent it is not skipped: it issues exactly one GET request
whose URL substitutes the literal `unknown` for the project, keyed by the
`X-Goog-Api-Key` header. -/
theorem c10_crashlytics_unknown_project (cfg : List (String × String))
    (env : Req → Resp) (tok : Option String) (k a : String)
    (hk : lookupD cfg "apiKey" = some k) (ha : lookupD cfg "appId" = some a)
    (hp : lookupD cfg "projectId" = none) :
    requestsOf (check_crashlytics cfg env tok).1 =
      [⟨"GET",
        "https://firebasecrashlytics.googleapis.com/v1/projects/unknown/apps/" ++ a ++
          "/issues",
        [("X-Goog-Api-Key", k)], none⟩] := by
  have hpr : ∀ (r : Resp) (e : Ev), e ∈ crash_resp_events r → ∃ s, e = Ev.printed s := by
    intro r e he
    rcases r with ⟨st, bd⟩ | ⟨t, m⟩
    · simp only [crash_resp_events] at he
      split at he <;> simp at he <;> exact ⟨_, he⟩
    · simp only [crash_resp_events] at he
      simp at he
      exact ⟨_, he⟩
  unfold check_crashlytics
  rw [ha, hk, hp]
  simp [requestsOf]
  intro e he
  obtain ⟨s, rfl⟩ := hpr _ e he
  rfl

/-- C10 witness: a ConfigMap with only `apiKey` and `appId` drives the
crash-report request to the `unknown` project URL. -/
theorem c10_witness :
    requestsOf (check_crashlytics [("apiKey", "K1"), ("appId", "A1")] env0 none).1 =
      [⟨"GET",
        "https://firebasecrashlytics.googleapis.com/v1/projects/unknown/apps/A1/issues",
        [("X-Goog-Api-Key", "K1")], none⟩] := by
  have h := c10_crashlytics_unknown_project [("apiKey", "K1"), ("appId", "A1")] env0 none
    "K1" "A1" rfl rfl rfl
  exact h.trans (by decide)

/-- The right strip used here is Mathlib's `List.rdropWhile`. -/
theorem dropWhileRight_eq (p : Char → Bool) (cs : List Char) :
    dropWhileRight p cs = List.rdropWhile p cs := rfl

/-- Left-stripping is idempotent across the right strip: the whole
`strip` is idempotent at the list level. -/
theorem pyStripList_idem (cs : List Char) :
    pyStripList (pyStripList cs) = pyStripList cs := by
  have h1 : List.dropWhile pyIsSpace (pyStripList cs) = pyStripList cs := by
    rw [List.dropWhile_eq_self_iff]
    intro hl
    show ¬ pyIsSpace
      ((List.rdropWhile pyIsSpace (List.dropWhile pyIsSpace cs)).get ⟨0, hl⟩) = true
    have hpre : List.rdropWhile pyIsSpace (List.dropWhile pyIsSpace cs) <+:
        List.dropWhile pyIsSpace cs := List.rdropWhile_prefix _ _
    have hl2 : 0 < (List.rdropWhile pyIsSpace (List.dropWhile pyIsSpace cs)).length := hl
    have hlen : 0 < (List.dropWhile pyIsSpace cs).length :=
      Nat.lt_of_lt_of_le hl2 hpre.length_le
    have hz := List.dropWhile_get_zero_not (p := pyIsSpace) cs hlen
    have hget := hpre.getElem hl2
    simp only [List.get_eq_getElem] at hz ⊢
    rw [hget]
    exact hz
  show dropWhileRight pyIsSpace (List.dropWhile pyIsSpace (pyStripList cs)) = pyStripList cs
  rw [h1, dropWhileRight_eq]
  show List.rdropWhile pyIsSpace
      (List.rdropWhile pyIsSpace (List.dropWhile pyIsSpace cs)) = _
  rw [List.rdropWhile_idempotent]
  rfl

/-- Python `str.strip()` is idempotent. -/
theorem pyStrip_idem (s : String) : pyStrip (pyStrip s) = pyStrip s :=
  congrArg String.mk (pyStripList_idem s.data)

/-- A pair of a dict after insertion was already present or carries the
inserted value. -/
theorem dictInsert_val_mem {α : Type} (acc : List (String × α)) (k : String) (v : α)
    (kv : String × α) (h : kv ∈ dictInsert acc k v) : kv ∈ acc ∨ kv.2 = v := by
  unfold dictInsert at h
  split at h
  · obtain ⟨x, hx, hmap⟩ := List.mem_map.mp h
    by_cases hk : x.1 = k
    · rw [if_pos hk] at hmap
      right
      rw [← hmap]
    · rw [if_neg hk] at hmap
      left
      rwa [← hmap]
  · rcases List.mem_append.mp h with h | h
    · left; exact h
    · right
      simp only [List.mem_singleton] at h
      rw [h]

/-- Every value accumulated by the cleaning fold is a stripped string. -/
theorem clean_foldl_inv (kvs : List (String × Json)) :
    ∀ acc : List (String × String), (∀ kv ∈ acc, pyStrip kv.2 = kv.2) →
      ∀ kv ∈ kvs.foldl
          (fun acc kv =>
            if pyTruthy kv.2 then dictInsert acc kv.1 (pyStrip (pyStr kv.2)) else acc)
          acc,
        pyStrip kv.2 = kv.2 := by
  induction kvs with
  | nil => intro acc hacc kv hkv; exact hacc kv hkv
  | cons x xs ih =>
    intro acc hacc kv hkv
    simp only [List.foldl_cons] at hkv
    refine ih _ ?_ kv hkv
    intro kv2 hkv2
    by_cases ht : pyTruthy x.2 = true
    · rw [if_pos ht] at hkv2
      rcases dictInsert_val_mem _ _ _ _ hkv2 with h | h
      · exact hacc kv2 h
      · rw [h]
        exact pyStrip_idem (pyStr x.2)
    · rw [if_neg ht] at hkv2
      exact hacc kv2 hkv2

/-- C3 counterexample: a whitespace-only value is truthy, so the cleaning
step retains its key — mapped to the empty string after stripping, against
the claimed non-empty invariant. -/
theorem c3_whitespace_value_kept_empty :
    tester_parse_config (Json.obj [("apiKey", Json.str " ")]) =
      some [("apiKey", "")] :=
  rfl

/-- C3 amended: every value retained by the config-cleaning step is
whitespace-trimmed (no leading or trailing whitespace); but since
truthiness is checked before stripping, a value is retained whenever the
original was non-empty, so a whitespace-only original survives as the empty
string. -/
theorem c3_amended_values_trimmed (j : Json) (out : List (String × String))
    (h : tester_parse_config j = some out) : ∀ kv ∈ out, pyStrip kv.2 = kv.2 := by
  intro kv hkv
  unfold tester_parse_config at h
  split at h
  · exact absurd h (by simp)
  · split at h
    · simp only [Option.some.injEq] at h
      rw [← h] at hkv
      exact clean_foldl_inv _ [] (by simp) kv hkv
    · exact absurd h (by simp)
    · exact absurd h (by simp)

/-- C3 witness: the amended trimming invariant applied at a concrete
configuration. -/
theorem c3_witness : pyStrip "A" = "A" :=
  c3_amended_values_trimmed (Json.obj [("apiKey", Json.str " A ")]) [("apiKey", "A")]
    rfl ("apiKey", "A") (by decide)

/-- C1 amended: when the direct JSON parse of the stripped input fails, the
JSON parse of the normalized text also fails, and the line-by-line fallback
over the normalized text collects nothing, `parse_firebase_config` raises
the ValueError enumerating the supported shapes.  (The empty string is not
such an input: brace-wrapping turns it into `{}`, which the normalization
strategy decodes to the empty mapping — see the counterexample.) -/
theorem c1_amended_parse_error (s : String)
    (h1 : jsonLoadsL (pyStripList s.data) = none)
    (h2 : jsonLoadsL (normalize_config_text (pyStripList s.data)) = none)
    (h3 : fallbackDict (normalize_config_text (pyStripList s.data)) = []) :
    parse_firebase_config s = Except.error parseErrMsg := by
  simp only [parse_firebase_config, h1, h2, h3]
  rfl

/-- C1 witness: the undecodable input `!!!` is rejected by all three
strategies and raises the ValueError. -/
theorem c1_witness : parse_firebase_config "!!!" = Except.error parseErrMsg :=
  c1_amended_parse_error "!!!" rfl rfl rfl

/-- `skipWs` leaves a non-whitespace head alone. -/
theorem skipWs_not_ws (c : Char) (t : List Char) (h : jsonWs c = false) :
    skipWs (c :: t) = c :: t := by
  simp [skipWs, h]

end FbSpec
